import Mathlib

/-!
# cluster-manager: a shallow embedding of `scripts/cluster-manager/main.go`

The program is a command dispatcher that shells out to `kubectl`.  The embedding
makes its effects explicit:

* the environment (`Env`) supplies the value of `HOME`, the result of `os.Stat`,
  `filepath.Join`, and the answer of every external process;
* a `Trace` records, in order, the external commands that were started and the
  chunks written to standard output;
* `main` returns an `Outcome`: the trace, the message of `log.Fatalf` (if any)
  and the process exit code.

Text is modelled as Lean `String`s (sequences of Unicode scalar values); Go
strings that are not valid UTF-8 are outside the model.  Go's `int` is the
64-bit integer of the arm64 target of this repository.
-/

namespace ClusterMgr

/-! ## Text functions of the Go standard library used by the program -/

/-- White space in the sense of Go's `unicode.IsSpace`; `fmt` uses the same set of
characters in its scanner. -/
def isSpace (c : Char) : Bool :=
  let n := c.toNat
  (0x09 ≤ n && n ≤ 0x0d) || n == 0x20 || n == 0x85 || n == 0xa0 || n == 0x1680
    || (0x2000 ≤ n && n ≤ 0x200a) || n == 0x2028 || n == 0x2029 || n == 0x202f
    || n == 0x205f || n == 0x3000

/-- Go's `strings.TrimSpace`: drop leading and trailing white space. -/
def TrimSpace (s : String) : String :=
  ⟨((s.data.dropWhile isSpace).reverse.dropWhile isSpace).reverse⟩

/-- Worker of `Split`: cut a character list at every occurrence of `sep`. -/
def splitChars (sep : Char) : List Char → List (List Char)
  | [] => [[]]
  | c :: cs =>
    if c = sep then [] :: splitChars sep cs
    else
      match splitChars sep cs with
      | [] => [[c]]
      | l :: ls => (c :: l) :: ls

/-- Go's `strings.Split(s, sep)` for a one-character separator (the program only
splits at a line feed).  The result always has at least one element: splitting
the empty string gives one empty piece. -/
def Split (s : String) (sep : Char) : List String :=
  (splitChars sep s.data).map String.mk

/-- Go's `strings.Contains(s, substr)`: `substr` occurs somewhere inside `s`. -/
def Contains (s substr : String) : Bool :=
  s.data.tails.any (fun t => substr.data.isPrefixOf t)

/-- The verb `%d` of `fmt.Sprintf` / `fmt.Printf` applied to an `int`. -/
def formatInt : Int → String
  | Int.ofNat m => Nat.repr m
  | Int.negSucc m => "-" ++ Nat.repr (m + 1)

/-- The scanner's `SkipSpace` as run by `fmt.Sscanf`: white space is skipped, a
line feed is an error (`none`), and the end of input is not. -/
def skipSpace : List Char → Option (List Char)
  | [] => some []
  | c :: cs =>
    if c = '\n' then none
    else if isSpace c then skipSpace cs
    else some (c :: cs)

/-- Value of a run of decimal digits, most significant digit first. -/
def digitsValue (ds : List Char) : Nat :=
  ds.foldl (fun acc c => 10 * acc + (c.toNat - 48)) 0

/-- The scan of one `%d` operand by `fmt.Sscanf`: skip leading space, accept an
optional sign, then at least one decimal digit; the token is converted by
`strconv.ParseInt(tok, 10, 64)`, which fails outside the 64-bit range.  Input
after the digits is left unread.  `none` stands for every error: the operand is
then not assigned.  `fmt.Sscanf` runs `SkipSpace` twice in a row (before the
verb and inside the integer scan); the second run has nothing left to skip.  The
scanner's width limit of 2^30 characters is larger than any command-line
argument and is not modelled. -/
def scanInt (input : List Char) : Option Int :=
  match skipSpace input with
  | none => none
  | some [] => none
  | some (c :: cs) =>
    let negative := decide (c = '-')
    let rest := if c = '-' ∨ c = '+' then cs else c :: cs
    let ds := rest.takeWhile Char.isDigit
    if ds = [] then none
    else if negative then
      (if digitsValue ds ≤ 2 ^ 63 then some (-(digitsValue ds : Int)) else none)
    else
      (if digitsValue ds < 2 ^ 63 then some (digitsValue ds : Int) else none)

/-- The statement `fmt.Sscanf(arg, "%d", &v)` whose error result is discarded:
the new value of `v`, given its current value `cur`. -/
def Sscanf (arg : String) (cur : Int) : Int :=
  (scanInt arg.data).getD cur

/-! ## The environment and the effects of the program -/

/-- An external command as built by `exec.Command(name, args...)`. -/
structure Cmd where
  name : String
  args : List String
  deriving DecidableEq, Repr

/-- Go's `exec.Command`. -/
def Command (name : String) (args : List String) : Cmd := ⟨name, args⟩

/-- What `cmd.CombinedOutput()` or `cmd.Output()` returns: the captured bytes and
the error (`none` for `nil`; otherwise the text that `%v` prints). -/
structure ExecResult where
  output : String
  err : Option String
  deriving DecidableEq, Repr

/-- The outcomes of `os.Stat` the program distinguishes: the file is there
(`found`); the error is one that `os.IsNotExist` recognises, `ENOENT`
(`notExist`); any other error, such as `ENOTDIR` when a component of the path
is not a directory or `EACCES` (`otherError`). -/
inductive StatResult where
  | found
  | notExist
  | otherError
  deriving DecidableEq, Repr

/-- Everything outside the program that it observes. `run history cmd` is the
answer of the external command `cmd` when `history` lists the commands started
before it. -/
structure Env where
  home : String
  join : List String → String
  stat : String → StatResult
  run : List Cmd → Cmd → ExecResult

/-- Go's `os.Stat` as far as `os.IsNotExist` can see it. The empty path names no
file (`ENOENT`). -/
def osStat (env : Env) (path : String) : StatResult :=
  if path = "" then StatResult.notExist else env.stat path

/-- Effects accumulated so far: the external commands started and the chunks
written to standard output, both oldest first. -/
structure Trace where
  calls : List Cmd
  out : List String
  deriving DecidableEq, Repr

/-- Start the external command, wait for it and collect its result. -/
def Trace.exec (env : Env) (t : Trace) (c : Cmd) : ExecResult × Trace :=
  (env.run t.calls c, { t with calls := t.calls ++ [c] })

/-- Go's `fmt.Print` of an already formatted string. -/
def Trace.Printf (t : Trace) (s : String) : Trace :=
  { t with out := t.out ++ [s] }

/-- Go's `fmt.Println` of one string. -/
def Trace.Println (t : Trace) (s : String) : Trace :=
  t.Printf (s ++ "\n")

/-! ## The program -/

/-- The struct `ClusterManager`. -/
structure ClusterManager where
  kubeconfig : String
  deriving DecidableEq, Repr

/-- The path whose existence `NewClusterManager` checks (source lines 17-20). -/
def kubeconfigPath (env : Env) : String :=
  if env.home ≠ "" then env.join [env.home, ".kube", "config"] else ""

/-- The constructor `NewClusterManager` (source lines 16-30). -/
def NewClusterManager (env : Env) : Except String ClusterManager :=
  let kubeconfig := kubeconfigPath env
  if osStat env kubeconfig = StatResult.notExist then
    Except.error ("kubeconfig not found at " ++ kubeconfig)
  else
    Except.ok { kubeconfig := kubeconfig }

/-- The method `GetClusterInfo` (source lines 32-63). -/
def ClusterManager.GetClusterInfo (_cm : ClusterManager) (env : Env) (t : Trace) :
    Trace × Option String :=
  let t := t.Println "=== Kubernetes Cluster Information ==="
  let t := t.Println "\nNodes:"
  let (r, t) := t.exec env (Command "kubectl" ["get", "nodes", "-o", "wide"])
  match r.err with
  | some e => (t, some ("failed to get nodes: " ++ e))
  | none =>
    let t := t.Println r.output
    let t := t.Println "\nPods:"
    let (r, t) := t.exec env (Command "kubectl" ["get", "pods", "-A"])
    match r.err with
    | some e => (t, some ("failed to get pods: " ++ e))
    | none =>
      let t := t.Println r.output
      let t := t.Println "\nServices:"
      let (r, t) := t.exec env (Command "kubectl" ["get", "svc", "-A"])
      match r.err with
      | some e => (t, some ("failed to get services: " ++ e))
      | none =>
        let t := t.Println r.output
        (t, none)

/-- The counting loop of `CheckClusterHealth` (source lines 80-84, 100-104 and
120-124): one increment per line that contains the marker. -/
def countContaining (marker : String) (lines : List String) : Nat :=
  lines.foldl (fun n line => if Contains line marker then n + 1 else n) 0

/-- The aggregation `CheckClusterHealth` applies to a listing (source lines 76-84
for nodes with marker `Ready`, 96-104 and 118-124 for pods with marker
`Running`): the pair (ready, total). -/
def aggregate (marker : String) (output : String) : Nat × Nat :=
  let lines := Split (TrimSpace output) '\n'
  (countContaining marker lines, lines.length)

/-- One iteration of the loop over the critical namespaces (source lines
110-127). -/
def checkNamespace (env : Env) (t : Trace) (ns : String) : Trace :=
  let (r, t) := t.exec env (Command "kubectl" ["get", "pods", "-n", ns, "--no-headers"])
  match r.err with
  | some e => t.Printf ("Warning: Could not check namespace " ++ ns ++ ": " ++ e ++ "\n")
  | none =>
    let (readyPods, total) := aggregate "Running" r.output
    t.Printf ("Namespace " ++ ns ++ ": " ++ formatInt readyPods ++ "/" ++ formatInt total
      ++ " pods ready\n")

/-- The method `CheckClusterHealth` (source lines 65-130). -/
def ClusterManager.CheckClusterHealth (_cm : ClusterManager) (env : Env) (t : Trace) :
    Trace × Option String :=
  let t := t.Println "=== Cluster Health Check ==="
  let t := t.Println "\nNode Health:"
  let (r, t) := t.exec env (Command "kubectl" ["get", "nodes", "--no-headers"])
  match r.err with
  | some e => (t, some ("failed to get nodes: " ++ e))
  | none =>
    let (healthyNodes, totalNodes) := aggregate "Ready" r.output
    let t := t.Printf ("Node Health: " ++ formatInt healthyNodes ++ "/" ++ formatInt totalNodes
      ++ " nodes ready\n")
    let t := t.Println "\nPod Health:"
    let (r, t) := t.exec env (Command "kubectl" ["get", "pods", "-A", "--no-headers"])
    match r.err with
    | some e => (t, some ("failed to get pods: " ++ e))
    | none =>
      let (runningPods, totalPods) := aggregate "Running" r.output
      let t := t.Printf ("Pod Health: " ++ formatInt runningPods ++ "/" ++ formatInt totalPods
        ++ " pods running\n")
      let criticalNamespaces := ["kube-system", "metallb-system", "traefik"]
      (criticalNamespaces.foldl (checkNamespace env) t, none)

/-- The method `ScaleDeployment` (source lines 132-143). -/
def ClusterManager.ScaleDeployment (_cm : ClusterManager) (env : Env) (t : Trace)
    (namespace_ name : String) (replicas : Int) : Trace × Option String :=
  let t := t.Printf ("Scaling deployment " ++ namespace_ ++ "/" ++ name ++ " to "
    ++ formatInt replicas ++ " replicas\n")
  let (r, t) := t.exec env (Command "kubectl"
    ["scale", "deployment", name, "-n", namespace_, "--replicas", formatInt replicas])
  match r.err with
  | some e => (t, some ("failed to scale deployment: " ++ e ++ ", output: " ++ r.output))
  | none =>
    (t.Printf ("Successfully scaled deployment " ++ namespace_ ++ "/" ++ name ++ " to "
      ++ formatInt replicas ++ " replicas\n"), none)

/-- The method `RestartDeployment` (source lines 145-156). -/
def ClusterManager.RestartDeployment (_cm : ClusterManager) (env : Env) (t : Trace)
    (namespace_ name : String) : Trace × Option String :=
  let t := t.Printf ("Restarting deployment " ++ namespace_ ++ "/" ++ name ++ "\n")
  let (r, t) := t.exec env (Command "kubectl"
    ["rollout", "restart", "deployment", name, "-n", namespace_])
  match r.err with
  | some e => (t, some ("failed to restart deployment: " ++ e ++ ", output: " ++ r.output))
  | none =>
    (t.Printf ("Successfully restarted deployment " ++ namespace_ ++ "/" ++ name ++ "\n"), none)

/-- The method `BackupEtcd` (source lines 158-181). -/
def ClusterManager.BackupEtcd (_cm : ClusterManager) (env : Env) (t : Trace) :
    Trace × Option String :=
  let t := t.Println "Creating etcd backup..."
  let (r, t) := t.exec env (Command "kubectl" ["get", "pods", "-n", "kube-system", "-l",
    "component=etcd", "-o", "jsonpath=\x7b.items[0].metadata.name\x7d"])
  match r.err with
  | some e => (t, some ("failed to find etcd pod: " ++ e))
  | none =>
    let etcdPod := r.output
    if etcdPod = "" then (t, some "no etcd pods found")
    else
      let (r, t) := t.exec env (Command "kubectl" ["exec", "-n", "kube-system", etcdPod, "--",
        "etcdctl", "snapshot", "save", "/tmp/backup.db"])
      match r.err with
      | some e => (t, some ("failed to create etcd backup: " ++ e ++ ", output: " ++ r.output))
      | none => (t.Printf ("Etcd backup created successfully: " ++ r.output), none)

/-- The method `ShowLogs` (source lines 183-194). -/
def ClusterManager.ShowLogs (_cm : ClusterManager) (env : Env) (t : Trace)
    (namespace_ podName : String) (lines : Int) : Trace × Option String :=
  let t := t.Printf ("Showing last " ++ formatInt lines ++ " lines of logs for " ++ namespace_
    ++ "/" ++ podName ++ "\n")
  let (r, t) := t.exec env (Command "kubectl"
    ["logs", "-n", namespace_, podName, "--tail", formatInt lines])
  match r.err with
  | some e => (t, some ("failed to get logs: " ++ e))
  | none => (t.Println r.output, none)

/-- The function `printUsage` (source lines 196-209). -/
def printUsage (t : Trace) : Trace :=
  let t := t.Println "Kubernetes Cluster Manager"
  let t := t.Println "Usage:"
  let t := t.Println "  cluster-manager [command] [options]"
  let t := t.Println ""
  let t := t.Println "Commands:"
  let t := t.Println "  info                    - Show cluster information"
  let t := t.Println "  health                  - Check cluster health"
  let t := t.Println "  scale <ns> <name> <n>  - Scale deployment"
  let t := t.Println "  restart <ns> <name>    - Restart deployment"
  let t := t.Println "  backup                  - Create etcd backup"
  let t := t.Println "  logs <ns> <pod> [n]    - Show pod logs (default: 100 lines)"
  t.Println "  help                    - Show this help message"

/-- How a run of the program ends: its effects, the message handed to
`log.Fatalf` (without the time stamp the logger puts in front) and the exit
code of the process. -/
structure Outcome where
  calls : List Cmd
  out : List String
  fatal : Option String
  exitCode : Nat
  deriving DecidableEq, Repr

/-- The call `os.Exit(code)`. -/
def exitWith (t : Trace) (code : Nat) : Outcome :=
  { calls := t.calls, out := t.out, fatal := none, exitCode := code }

/-- The call `log.Fatalf`: the message goes to the log and the process exits
with code 1. -/
def Fatalf (t : Trace) (msg : String) : Outcome :=
  { calls := t.calls, out := t.out, fatal := some msg, exitCode := 1 }

/-- The end of a command's case in `main`: fatal when the method returned an
error, otherwise `main` returns and the process exits with code 0. -/
def finish (context : String) (r : Trace × Option String) : Outcome :=
  match r.2 with
  | some e => Fatalf r.1 (context ++ e)
  | none => exitWith r.1 0

/-- The function `main` (source lines 211-273); `args` is `os.Args`. -/
def main (env : Env) (args : List String) : Outcome :=
  let t : Trace := { calls := [], out := [] }
  if args.length < 2 then exitWith (printUsage t) 1
  else
    match NewClusterManager env with
    | Except.error e => Fatalf t ("Failed to create cluster manager: " ++ e)
    | Except.ok cm =>
      let command := args.getD 1 ""
      if command = "info" then
        finish "Failed to get cluster info: " (cm.GetClusterInfo env t)
      else if command = "health" then
        finish "Failed to check cluster health: " (cm.CheckClusterHealth env t)
      else if command = "scale" then
        if args.length ≠ 5 then
          exitWith (t.Println "Usage: scale <namespace> <deployment> <replicas>") 1
        else
          let replicas : Int := 0
          let replicas := Sscanf (args.getD 4 "") replicas
          finish "Failed to scale deployment: "
            (cm.ScaleDeployment env t (args.getD 2 "") (args.getD 3 "") replicas)
      else if command = "restart" then
        if args.length ≠ 4 then
          exitWith (t.Println "Usage: restart <namespace> <deployment>") 1
        else
          finish "Failed to restart deployment: "
            (cm.RestartDeployment env t (args.getD 2 "") (args.getD 3 ""))
      else if command = "backup" then
        finish "Failed to create backup: " (cm.BackupEtcd env t)
      else if command = "logs" then
        if args.length < 4 then
          exitWith (t.Println "Usage: logs <namespace> <pod> [lines]") 1
        else
          let lines : Int := 100
          let lines := if args.length = 5 then Sscanf (args.getD 4 "") lines else lines
          finish "Failed to show logs: "
            (cm.ShowLogs env t (args.getD 2 "") (args.getD 3 "") lines)
      else if command = "help" then
        exitWith (printUsage t) 0
      else
        exitWith (printUsage (t.Printf ("Unknown command: " ++ command ++ "\n"))) 1

/-! ## Concrete environments used to run the program on examples -/

/-- An environment with the credentials file in place in which every external
command succeeds and prints `answer`. -/
def envAnswering (answer : String) : Env where
  home := "/home/pi"
  join := fun parts => String.intercalate "/" parts
  stat := fun _ => StatResult.found
  run := fun _ _ => { output := answer, err := none }

/-- An environment whose home directory has no credentials file. -/
def envNoConfig : Env where
  home := "/home/pi"
  join := fun parts => String.intercalate "/" parts
  stat := fun _ => StatResult.notExist
  run := fun _ _ => { output := "", err := none }

/-- An environment in which `HOME` is unset. -/
def envNoHome : Env where
  home := ""
  join := fun parts => String.intercalate "/" parts
  stat := fun _ => StatResult.found
  run := fun _ _ => { output := "", err := none }

/-- An environment in which `HOME` names a regular file, `/etc/hostname`: the
credentials file `/etc/hostname/.kube/config` does not exist, and `os.Stat` of it
fails with `ENOTDIR`, an error that `os.IsNotExist` does not recognise.  Every
external command succeeds and prints nothing. -/
def envHomeIsFile : Env where
  home := "/etc/hostname"
  join := fun parts => String.intercalate "/" parts
  stat := fun path => if path = "/etc/hostname" then StatResult.found else StatResult.otherError
  run := fun _ _ => { output := "", err := none }

/-- An environment with the credentials file in place in which every external
command fails. -/
def envFailing : Env where
  home := "/home/pi"
  join := fun parts => String.intercalate "/" parts
  stat := fun _ => StatResult.found
  run := fun _ _ => { output := "connection refused", err := some "exit status 1" }

/-- An environment with the credentials file in place in which the node listing
prints `nodes`, every other external command prints `pods`, and all succeed. -/
def envCluster (nodes pods : String) : Env where
  home := "/home/pi"
  join := fun parts => String.intercalate "/" parts
  stat := fun _ => StatResult.found
  run := fun _ c =>
    if c.args = ["get", "nodes", "--no-headers"] then { output := nodes, err := none }
    else { output := pods, err := none }

/-- A node listing as `kubectl get nodes --no-headers` prints it: two nodes, the
first with status `Ready`, the second with status `NotReady`. -/
def twoNodeListing : String :=
  "node-a   Ready      control-plane   12d   v1.29.0\nnode-b   NotReady   <none>          12d   v1.29.0\n"

/-- The output of a listing with `--no-headers` as `kubectl` prints it: one line
of text per entry, each ended by a line feed; nothing at all for a listing
without entries. -/
def renderListing : List String → String
  | [] => ""
  | entry :: rest => entry ++ "\n" ++ renderListing rest

/-! ## Vocabulary of the claims about the replicas argument -/

/-- The text begins with a decimal integer: an optional sign directly followed by
a decimal digit, at the very first character. -/
def beginsWithInteger (s : String) : Bool :=
  match s.data with
  | [] => false
  | c :: cs =>
    if c = '-' ∨ c = '+' then
      (match cs with
       | [] => false
       | d :: _ => d.isDigit)
    else c.isDigit

/-- The text without its leading white space. -/
def dropLeadingSpace (s : String) : String :=
  ⟨s.data.dropWhile isSpace⟩

/-- The external command that scales deployment `name` in namespace `ns` to the
replica count written `n`. -/
def scaleCmd (ns name n : String) : Cmd :=
  Command "kubectl" ["scale", "deployment", name, "-n", ns, "--replicas", n]

/-- The external command that tails `n` lines of the logs of pod `pod` in
namespace `ns`. -/
def logsCmd (ns pod n : String) : Cmd :=
  Command "kubectl" ["logs", "-n", ns, pod, "--tail", n]

/-! ## Dispatch: usage errors and the credentials check -/

theorem NewClusterManager_error (env : Env)
    (h : env.home = "" ∨ env.stat (env.join [env.home, ".kube", "config"]) = StatResult.notExist) :
    NewClusterManager env = Except.error ("kubeconfig not found at " ++ kubeconfigPath env) := by
  unfold NewClusterManager
  have hs : osStat env (kubeconfigPath env) = StatResult.notExist := by
    unfold osStat kubeconfigPath
    rcases h with h | h
    · simp [h]
    · by_cases hh : env.home = ""
      · simp [hh]
      · simp only [ne_eq, hh, not_false_eq_true, if_true]
        split <;> simp [h]
  simp [hs]

theorem NewClusterManager_ok (env : Env)
    (h : osStat env (kubeconfigPath env) ≠ StatResult.notExist) :
    NewClusterManager env = Except.ok { kubeconfig := kubeconfigPath env } := by
  unfold NewClusterManager
  simp [h]

theorem NewClusterManager_cases (env : Env) :
    (∃ e, NewClusterManager env = Except.error e) ∨
      (∃ cm, NewClusterManager env = Except.ok cm) := by
  cases h : NewClusterManager env with
  | error e => exact Or.inl ⟨e, rfl⟩
  | ok cm => exact Or.inr ⟨cm, rfl⟩

theorem printUsage_calls (t : Trace) : (printUsage t).calls = t.calls := rfl

theorem two_args_present (n : Nat) : ¬ (n + 1 + 1 < 2) := by omega

/-- C4: for every command name outside the seven known ones and every list of
further arguments, `main` starts no external command and exits with code 1. -/
theorem C4_unknown_command_exits_1_without_call (env : Env) (prog command : String)
    (rest : List String)
    (h : command ∉ ["info", "health", "scale", "restart", "backup", "logs", "help"]) :
    (main env (prog :: command :: rest)).calls = [] ∧
      (main env (prog :: command :: rest)).exitCode = 1 := by
  simp only [List.mem_cons, List.mem_singleton, not_or, List.not_mem_nil, or_false] at h
  obtain ⟨h1, h2, h3, h4, h5, h6, h7⟩ := h
  rcases NewClusterManager_cases env with ⟨e, he⟩ | ⟨cm, hc⟩
  · simp [main, he, Fatalf, two_args_present]
  · simp [main, hc, h1, h2, h3, h4, h5, h6, h7, exitWith, printUsage_calls, Trace.Printf,
      two_args_present]

theorem C4_witness :
    "bogus" ∉ ["info", "health", "scale", "restart", "backup", "logs", "help"] ∧
      (main (envAnswering "") ["cluster-manager", "bogus", "x"]).calls = [] ∧
      (main (envAnswering "") ["cluster-manager", "bogus", "x"]).exitCode = 1 :=
  ⟨by decide, C4_unknown_command_exits_1_without_call (envAnswering "") "cluster-manager" "bogus"
    ["x"] (by decide)⟩

/-- When `HOME` is unset or `os.Stat` of `<home>/.kube/config` fails with an error
that `os.IsNotExist` recognises, every command (`help` included) ends in
`log.Fatalf` with the message of `NewClusterManager`: exit code 1, nothing
dispatched, nothing printed and no external command started. -/
theorem main_fatal_of_not_exist (env : Env) (prog command : String)
    (rest : List String)
    (h : env.home = "" ∨
      env.stat (env.join [env.home, ".kube", "config"]) = StatResult.notExist) :
    main env (prog :: command :: rest) =
      { calls := [], out := [],
        fatal := some ("Failed to create cluster manager: "
          ++ ("kubeconfig not found at " ++ kubeconfigPath env)),
        exitCode := 1 } := by
  simp [main, NewClusterManager_error env h, Fatalf, two_args_present]

theorem main_fatal_of_not_exist_example :
    (envNoConfig.home = "" ∨
      envNoConfig.stat (envNoConfig.join [envNoConfig.home, ".kube", "config"])
        = StatResult.notExist) ∧
    main envNoConfig ["cluster-manager", "help"] =
      { calls := [], out := [],
        fatal := some ("Failed to create cluster manager: "
          ++ ("kubeconfig not found at " ++ kubeconfigPath envNoConfig)),
        exitCode := 1 } :=
  ⟨Or.inr rfl, main_fatal_of_not_exist envNoConfig "cluster-manager" "help" [] (Or.inr rfl)⟩

/-- C5: with `HOME` naming a regular file the credentials file
`<home>/.kube/config` does not exist, yet `os.Stat` fails with an error other
than "not exist", `NewClusterManager` returns a manager, and the commands are
dispatched: `help` prints the usage and exits with code 0 without a fatal
message, and `scale ns web-app 3` starts its external command and exits with
code 0. -/
theorem C5_missing_file_not_detected_when_home_is_file :
    kubeconfigPath envHomeIsFile = "/etc/hostname/.kube/config" ∧
      osStat envHomeIsFile (kubeconfigPath envHomeIsFile) = StatResult.otherError ∧
      (NewClusterManager envHomeIsFile).toOption
        = some { kubeconfig := "/etc/hostname/.kube/config" } ∧
      (main envHomeIsFile ["cluster-manager", "help"]).exitCode = 0 ∧
      (main envHomeIsFile ["cluster-manager", "help"]).fatal = none ∧
      (main envHomeIsFile ["cluster-manager", "help"]).out = (printUsage ⟨[], []⟩).out ∧
      (main envHomeIsFile ["cluster-manager", "scale", "ns", "web-app", "3"]).calls
        = [Command "kubectl" ["scale", "deployment", "web-app", "-n", "ns", "--replicas", "3"]] ∧
      (main envHomeIsFile ["cluster-manager", "scale", "ns", "web-app", "3"]).exitCode = 0 := by
  decide

/-- C7: an argument list that fails the arity check of its command (`logs` with
fewer than two positional arguments, `scale` with other than three, `restart`
with other than two) makes `main` exit with code 1 without starting any external
command. -/
theorem C7_arity_failure_exits_1_without_call (env : Env) (prog command : String)
    (rest : List String)
    (h : (command = "logs" ∧ rest.length < 2) ∨ (command = "scale" ∧ rest.length ≠ 3) ∨
      (command = "restart" ∧ rest.length ≠ 2)) :
    (main env (prog :: command :: rest)).calls = [] ∧
      (main env (prog :: command :: rest)).exitCode = 1 := by
  rcases NewClusterManager_cases env with ⟨e, he⟩ | ⟨cm, hc⟩
  · simp [main, he, Fatalf, two_args_present]
  · rcases h with ⟨hc1, hl⟩ | ⟨hc1, hl⟩ | ⟨hc1, hl⟩
    · subst hc1
      have : rest.length + 1 + 1 < 4 := by omega
      simp [main, hc, exitWith, Trace.Println, Trace.Printf, this, two_args_present]
    · subst hc1
      simp [main, hc, exitWith, Trace.Println, Trace.Printf, hl, two_args_present]
    · subst hc1
      simp [main, hc, exitWith, Trace.Println, Trace.Printf, hl, two_args_present]

theorem C7_witness :
    (("logs" = "logs" ∧ ["ns"].length < 2) ∨ ("logs" = "scale" ∧ ["ns"].length ≠ 3) ∨
      ("logs" = "restart" ∧ ["ns"].length ≠ 2)) ∧
    (main (envAnswering "") ["cluster-manager", "logs", "ns"]).calls = [] ∧
      (main (envAnswering "") ["cluster-manager", "logs", "ns"]).exitCode = 1 :=
  ⟨by decide, C7_arity_failure_exits_1_without_call (envAnswering "") "cluster-manager" "logs"
    ["ns"] (by decide)⟩

/-! ## Decimal text: `%d` printed and scanned -/

theorem digitChar_isDigit (k : Nat) (h : k < 10) :
    (Nat.digitChar k).isDigit = true ∧ (Nat.digitChar k).toNat - 48 = k := by
  interval_cases k <;> decide

theorem digitsValue_append_single (ds : List Char) (c : Char) :
    digitsValue (ds ++ [c]) = 10 * digitsValue ds + (c.toNat - 48) := by
  simp [digitsValue, List.foldl_append]

theorem toDigitsCore_decimal (fuel : Nat) :
    ∀ (n : Nat) (acc : List Char), n < fuel →
      ∃ ds, Nat.toDigitsCore 10 fuel n acc = ds ++ acc ∧ ds ≠ [] ∧
        (∀ c ∈ ds, c.isDigit = true) ∧ digitsValue ds = n := by
  induction fuel with
  | zero => intro n acc h; omega
  | succ fuel ih =>
    intro n acc h
    have hd := digitChar_isDigit (n % 10) (Nat.mod_lt n (by norm_num))
    by_cases h0 : n / 10 = 0
    · refine ⟨[Nat.digitChar (n % 10)], ?_, by simp, ?_, ?_⟩
      · simp [Nat.toDigitsCore, h0]
      · intro c hc
        simp only [List.mem_singleton] at hc
        rw [hc]; exact hd.1
      · have hmod : n % 10 = n := Nat.mod_eq_of_lt (by omega)
        rw [hmod] at hd
        simp [digitsValue, hmod, hd.2]
    · have hlt : n / 10 < fuel := by omega
      obtain ⟨ds, h1, _, h3, h4⟩ := ih (n / 10) (Nat.digitChar (n % 10) :: acc) hlt
      refine ⟨ds ++ [Nat.digitChar (n % 10)], ?_, by simp, ?_, ?_⟩
      · simp [Nat.toDigitsCore, h0, h1]
      · intro c hc
        rcases List.mem_append.1 hc with hc | hc
        · exact h3 c hc
        · simp only [List.mem_singleton] at hc
          rw [hc]; exact hd.1
      · rw [digitsValue_append_single, h4, hd.2]
        omega

theorem repr_decimal (n : Nat) :
    ∃ ds, (Nat.repr n).data = ds ∧ ds ≠ [] ∧ (∀ c ∈ ds, c.isDigit = true) ∧
      digitsValue ds = n := by
  obtain ⟨ds, h1, h2, h3, h4⟩ := toDigitsCore_decimal (n + 1) n [] (Nat.lt_succ_self n)
  refine ⟨ds, ?_, h2, h3, h4⟩
  simp [Nat.repr, Nat.toDigits, h1, List.asString]

theorem isDigit_bounds (c : Char) (h : c.isDigit = true) : 48 ≤ c.toNat ∧ c.toNat ≤ 57 := by
  simp only [Char.isDigit, Bool.and_eq_true, decide_eq_true_eq] at h
  obtain ⟨h1, h2⟩ := h
  have h1' : (48 : UInt32).toNat ≤ c.val.toNat := h1
  have h2' : c.val.toNat ≤ (57 : UInt32).toNat := h2
  exact ⟨h1', h2'⟩

theorem isDigit_not_special (c : Char) (h : c.isDigit = true) :
    c ≠ '\n' ∧ isSpace c = false ∧ c ≠ '-' ∧ c ≠ '+' := by
  obtain ⟨h1, h2⟩ := isDigit_bounds c h
  refine ⟨?_, ?_, ?_, ?_⟩
  · rintro rfl; revert h1; decide
  · simp only [isSpace, Bool.or_eq_false_iff, Bool.and_eq_false_iff, decide_eq_false_iff_not,
      beq_eq_false_iff_ne, ne_eq]
    omega
  · rintro rfl; revert h1; decide
  · rintro rfl; revert h1; decide

theorem takeWhile_digits (ds : List Char) (h : ∀ c ∈ ds, c.isDigit = true) :
    ds.takeWhile Char.isDigit = ds :=
  List.takeWhile_eq_self_iff.2 h

/-- Scanning an unsigned run of digits whose value fits the 64-bit `int`. -/
theorem scanInt_digits (ds : List Char) (hne : ds ≠ []) (hd : ∀ c ∈ ds, c.isDigit = true)
    (hr : digitsValue ds < 2 ^ 63) : scanInt ds = some (digitsValue ds : Int) := by
  cases ds with
  | nil => exact absurd rfl hne
  | cons c cs =>
    obtain ⟨hn, hs, hm, hp⟩ := isDigit_not_special c (hd c (List.mem_cons_self c cs))
    have htw := takeWhile_digits (c :: cs) hd
    have hr2 : digitsValue (c :: cs) < 9223372036854775808 := by norm_num at hr; exact hr
    simp [scanInt, skipSpace, hn, hs, hm, hp, htw, hr2]

/-- Scanning a minus sign followed by a run of digits whose negated value fits the
64-bit `int`. -/
theorem scanInt_minus_digits (ds : List Char) (hne : ds ≠ [])
    (hd : ∀ c ∈ ds, c.isDigit = true) (hr : digitsValue ds ≤ 2 ^ 63) :
    scanInt ('-' :: ds) = some (-(digitsValue ds : Int)) := by
  have htw := takeWhile_digits ds hd
  have hsp : isSpace '-' = false := by decide
  have hnl : ('-' : Char) ≠ '\n' := by decide
  have hr2 : digitsValue ds ≤ 9223372036854775808 := by norm_num at hr; exact hr
  simp [scanInt, skipSpace, hsp, htw, hr2, hne]

theorem Sscanf_repr (n : Nat) (cur : Int) (h : n < 2 ^ 63) : Sscanf (Nat.repr n) cur = n := by
  obtain ⟨ds, h1, h2, h3, h4⟩ := repr_decimal n
  unfold Sscanf
  rw [h1, scanInt_digits ds h2 h3 (by rw [h4]; exact h), h4]
  rfl

theorem Sscanf_minus_repr (n : Nat) (cur : Int) (h : n ≤ 2 ^ 63) :
    Sscanf ("-" ++ Nat.repr n) cur = -(n : Int) := by
  obtain ⟨ds, h1, h2, h3, h4⟩ := repr_decimal n
  unfold Sscanf
  have : ("-" ++ Nat.repr n).data = '-' :: ds := by
    rw [String.data_append, h1]; rfl
  rw [this, scanInt_minus_digits ds h2 h3 (by rw [h4]; exact h), h4]
  rfl

theorem formatInt_natCast (n : Nat) : formatInt (n : Int) = Nat.repr n := rfl

theorem formatInt_neg (n : Nat) (h : 0 < n) : formatInt (-(n : Int)) = "-" ++ Nat.repr n := by
  cases n with
  | zero => omega
  | succ m => rfl

/-! ## The commands `scale` and `logs` -/

/-- With the credentials in place, `scale` with three positional arguments always
starts exactly one external command, whatever the replicas argument is. -/
theorem main_scale (env : Env) (prog ns name arg : String)
    (h : osStat env (kubeconfigPath env) ≠ StatResult.notExist) :
    (main env [prog, "scale", ns, name, arg]).calls
        = [scaleCmd ns name (formatInt (Sscanf arg 0))] ∧
      (main env [prog, "scale", ns, name, arg]).exitCode
        = if (env.run [] (scaleCmd ns name (formatInt (Sscanf arg 0)))).err = none then 0
          else 1 := by
  cases herr : (env.run [] (scaleCmd ns name (formatInt (Sscanf arg 0)))).err <;>
    simp [scaleCmd] at herr <;>
    simp [main, NewClusterManager_ok env h, ClusterManager.ScaleDeployment, finish, Trace.exec,
      Trace.Printf, exitWith, Fatalf, scaleCmd, herr]

theorem main_logs_default (env : Env) (prog ns pod : String)
    (h : osStat env (kubeconfigPath env) ≠ StatResult.notExist) :
    (main env [prog, "logs", ns, pod]).calls = [logsCmd ns pod (formatInt 100)] := by
  cases herr : (env.run [] (logsCmd ns pod (formatInt 100))).err <;>
    simp [logsCmd] at herr <;>
    simp [main, NewClusterManager_ok env h, ClusterManager.ShowLogs, finish, Trace.exec,
      Trace.Printf, Trace.Println, exitWith, Fatalf, logsCmd, herr]

theorem main_logs_count (env : Env) (prog ns pod arg : String)
    (h : osStat env (kubeconfigPath env) ≠ StatResult.notExist) :
    (main env [prog, "logs", ns, pod, arg]).calls
      = [logsCmd ns pod (formatInt (Sscanf arg 100))] := by
  cases herr : (env.run [] (logsCmd ns pod (formatInt (Sscanf arg 100)))).err <;>
    simp [logsCmd] at herr <;>
    simp [main, NewClusterManager_ok env h, ClusterManager.ShowLogs, finish, Trace.exec,
      Trace.Printf, Trace.Println, exitWith, Fatalf, logsCmd, herr]

/-- With `HOME` unset even `help` ends in `log.Fatalf`, before the dispatch. -/
theorem main_help_without_home :
    main envNoHome ["cluster-manager", "help"] =
      { calls := [], out := [],
        fatal := some "Failed to create cluster manager: kubeconfig not found at ",
        exitCode := 1 } := by
  decide

/-- A failing external command makes `scale` exit with code 1 after that one
command. -/
theorem main_scale_failing_call :
    (main envFailing ["cluster-manager", "scale", "ns", "web-app", "3"]).calls
        = [scaleCmd "ns" "web-app" "3"] ∧
      (main envFailing ["cluster-manager", "scale", "ns", "web-app", "3"]).exitCode = 1 ∧
      (main envFailing ["cluster-manager", "scale", "ns", "web-app", "3"]).fatal
        = some ("Failed to scale deployment: failed to scale deployment: exit status 1, "
          ++ "output: connection refused") := by
  decide

/-- With the credentials in place `help` prints the usage and exits with code 0
without any external command. -/
theorem main_help_with_credentials :
    (main (envAnswering "") ["cluster-manager", "help"]).calls = [] ∧
      (main (envAnswering "") ["cluster-manager", "help"]).exitCode = 0 := by
  decide

theorem envAnswering_credentials (answer : String) :
    osStat (envAnswering answer) (kubeconfigPath (envAnswering answer)) ≠ StatResult.notExist := by
  have hp : kubeconfigPath (envAnswering answer) = "/home/pi/.kube/config" := by
    simp only [kubeconfigPath, envAnswering]
    decide
  rw [hp]
  simp only [osStat, envAnswering]
  decide

theorem skipSpace_cases (l : List Char) :
    skipSpace l = none ∨ skipSpace l = some (l.dropWhile isSpace) := by
  induction l with
  | nil => right; rfl
  | cons c cs ih =>
    by_cases hn : c = '\n'
    · left; simp [skipSpace, hn]
    · by_cases hs : isSpace c = true
      · rcases ih with ih | ih
        · left; simp [skipSpace, hn, hs, ih]
        · right; simp [skipSpace, hn, hs, ih, List.dropWhile]
      · right; simp [skipSpace, hn, hs, List.dropWhile]

theorem takeWhile_digits_nil (l : List Char)
    (h : (match l with
      | [] => false
      | d :: _ => d.isDigit) = false) : l.takeWhile Char.isDigit = [] := by
  cases l with
  | nil => rfl
  | cons d ds =>
    simp only at h
    simp [List.takeWhile, h]

/-- A text that, after its leading white space, does not begin with an optionally
signed decimal integer makes the scan of `%d` fail. -/
theorem scanInt_none (arg : String) (h : beginsWithInteger (dropLeadingSpace arg) = false) :
    scanInt arg.data = none := by
  rcases skipSpace_cases arg.data with hs | hs
  · simp [scanInt, hs]
  · simp only [beginsWithInteger, dropLeadingSpace] at h
    cases hr : arg.data.dropWhile isSpace with
    | nil => simp [scanInt, hs, hr]
    | cons c cs =>
      rw [hr] at h hs
      simp only at h
      by_cases hsign : c = '-' ∨ c = '+'
      · rw [if_pos hsign] at h
        have htw := takeWhile_digits_nil cs h
        simp [scanInt, hs, hsign, htw]
      · rw [if_neg hsign] at h
        have htw : (c :: cs).takeWhile Char.isDigit = [] := by simp [List.takeWhile, h]
        simp [scanInt, hs, hsign, htw]

theorem Sscanf_unparsable (arg : String) (cur : Int)
    (h : beginsWithInteger (dropLeadingSpace arg) = false) : Sscanf arg cur = cur := by
  simp [Sscanf, scanInt_none arg h]

/-- C3, counterexample: `scale ns web-app -1` is not rejected. One external
command is started, with `--replicas -1`, and the program exits with code 0. -/
theorem C3_negative_replicas_accepted_example :
    (main (envAnswering "") ["cluster-manager", "scale", "ns", "web-app", "-1"]).calls
        = [scaleCmd "ns" "web-app" "-1"] ∧
      (main (envAnswering "") ["cluster-manager", "scale", "ns", "web-app", "-1"]).exitCode = 0 ∧
      ¬ ((main (envAnswering "") ["cluster-manager", "scale", "ns", "web-app", "-1"]).exitCode ≠ 0
        ∧ (main (envAnswering "") ["cluster-manager", "scale", "ns", "web-app", "-1"]).calls
          = []) := by
  decide

/-- C3, amended: with the credentials in place, for every namespace, deployment
name and negative replica count `-n` of the 64-bit `int` range written in
decimal, `scale` performs no validation: it starts exactly one external command,
with `--replicas -n`, and the exit code is 0 when that command succeeds and 1
when it fails. -/
theorem C3_negative_replicas_passed_through (env : Env) (prog ns name : String) (n : Nat)
    (hcred : osStat env (kubeconfigPath env) ≠ StatResult.notExist)
    (hpos : 0 < n) (hrange : n ≤ 2 ^ 63) :
    (main env [prog, "scale", ns, name, "-" ++ Nat.repr n]).calls
        = [scaleCmd ns name ("-" ++ Nat.repr n)] ∧
      (main env [prog, "scale", ns, name, "-" ++ Nat.repr n]).exitCode
        = if (env.run [] (scaleCmd ns name ("-" ++ Nat.repr n))).err = none then 0 else 1 := by
  have hm := main_scale env prog ns name ("-" ++ Nat.repr n) hcred
  rw [Sscanf_minus_repr n 0 hrange, formatInt_neg n hpos] at hm
  exact hm

theorem C3_witness :
    osStat (envAnswering "") (kubeconfigPath (envAnswering "")) ≠ StatResult.notExist ∧
      0 < 1 ∧ 1 ≤ 2 ^ 63 ∧
      (main (envAnswering "") ["cluster-manager", "scale", "ns", "web-app", "-" ++ Nat.repr 1]).calls
        = [scaleCmd "ns" "web-app" ("-" ++ Nat.repr 1)] ∧
      (main (envAnswering "") ["cluster-manager", "scale", "ns", "web-app",
          "-" ++ Nat.repr 1]).exitCode
        = if ((envAnswering "").run [] (scaleCmd "ns" "web-app" ("-" ++ Nat.repr 1))).err = none
          then 0 else 1 :=
  ⟨envAnswering_credentials "", by decide, by decide,
    C3_negative_replicas_passed_through (envAnswering "") "cluster-manager" "ns" "web-app" 1
      (envAnswering_credentials "") (by decide) (by decide)⟩

/-- C6: with the credentials in place, for every namespace and pod name, `logs`
without a line count requests `--tail 100`, `logs` with line count `50` requests
`--tail 50`, each run starts exactly that one external command, and the two
argument lists agree in everything before the tail value. -/
theorem C6_logs_default_100_and_explicit_50 (env : Env) (prog ns pod : String)
    (hcred : osStat env (kubeconfigPath env) ≠ StatResult.notExist) :
    (main env [prog, "logs", ns, pod]).calls
        = [Command "kubectl" ["logs", "-n", ns, pod, "--tail", "100"]] ∧
      (main env [prog, "logs", ns, pod, "50"]).calls
        = [Command "kubectl" ["logs", "-n", ns, pod, "--tail", "50"]] ∧
      ((main env [prog, "logs", ns, pod]).calls.map (fun c => (c.name, c.args.dropLast)))
        = ((main env [prog, "logs", ns, pod, "50"]).calls.map
            (fun c => (c.name, c.args.dropLast))) := by
  have h1 := main_logs_default env prog ns pod hcred
  have h2 := main_logs_count env prog ns pod "50" hcred
  have e1 : formatInt 100 = "100" := by decide
  have e2 : formatInt (Sscanf "50" 100) = "50" := by decide
  rw [e1] at h1
  rw [e2] at h2
  refine ⟨h1, h2, ?_⟩
  rw [h1, h2]
  simp [logsCmd, Command]

theorem C6_witness :
    osStat (envAnswering "") (kubeconfigPath (envAnswering "")) ≠ StatResult.notExist ∧
      (main (envAnswering "") ["cluster-manager", "logs", "ns", "pod"]).calls
        = [Command "kubectl" ["logs", "-n", "ns", "pod", "--tail", "100"]] ∧
      (main (envAnswering "") ["cluster-manager", "logs", "ns", "pod", "50"]).calls
        = [Command "kubectl" ["logs", "-n", "ns", "pod", "--tail", "50"]] ∧
      ((main (envAnswering "") ["cluster-manager", "logs", "ns", "pod"]).calls.map
          (fun c => (c.name, c.args.dropLast)))
        = ((main (envAnswering "") ["cluster-manager", "logs", "ns", "pod", "50"]).calls.map
            (fun c => (c.name, c.args.dropLast))) :=
  ⟨envAnswering_credentials "",
    C6_logs_default_100_and_explicit_50 (envAnswering "") "cluster-manager" "ns" "pod"
      (envAnswering_credentials "")⟩

/-- C8, counterexample: for the replica count 9223372036854775808 (2^63, one past
the largest `int`) the scan fails, `replicas` stays 0 and the external command is
started with `--replicas 0`, not with the number that was written. -/
theorem C8_replicas_beyond_int_example :
    (main (envAnswering "")
        ["cluster-manager", "scale", "ns", "web-app", Nat.repr (2 ^ 63)]).calls
        = [scaleCmd "ns" "web-app" "0"] ∧
      (main (envAnswering "")
        ["cluster-manager", "scale", "ns", "web-app", Nat.repr (2 ^ 63)]).calls
        ≠ [scaleCmd "ns" "web-app" (Nat.repr (2 ^ 63))] := by
  decide

/-- C8, amended: with the credentials in place, for every namespace `ns`,
deployment name `d` and replica count `n` of the `int` range, `0 ≤ n < 2^63`,
written in decimal (`n = 0` included), `scale ns d n` starts exactly one
external command, `kubectl scale deployment d -n ns --replicas n`, and exits
with code 0 when that command succeeds. -/
theorem C8_scale_issues_one_call (env : Env) (prog ns name : String) (n : Nat)
    (hcred : osStat env (kubeconfigPath env) ≠ StatResult.notExist)
    (hrange : n < 2 ^ 63) :
    (main env [prog, "scale", ns, name, Nat.repr n]).calls
        = [Command "kubectl" ["scale", "deployment", name, "-n", ns, "--replicas", Nat.repr n]] ∧
      ((env.run [] (Command "kubectl"
          ["scale", "deployment", name, "-n", ns, "--replicas", Nat.repr n])).err = none →
        (main env [prog, "scale", ns, name, Nat.repr n]).exitCode = 0) := by
  have hm := main_scale env prog ns name (Nat.repr n) hcred
  rw [Sscanf_repr n 0 hrange, formatInt_natCast] at hm
  refine ⟨hm.1, fun hok => ?_⟩
  rw [hm.2]
  simp only [scaleCmd]
  rw [if_pos hok]

theorem C8_witness :
    osStat (envAnswering "") (kubeconfigPath (envAnswering "")) ≠ StatResult.notExist ∧
      3 < 2 ^ 63 ∧
      (main (envAnswering "") ["cluster-manager", "scale", "ns", "web-app", Nat.repr 3]).calls
        = [Command "kubectl"
            ["scale", "deployment", "web-app", "-n", "ns", "--replicas", Nat.repr 3]] ∧
      (((envAnswering "").run [] (Command "kubectl"
          ["scale", "deployment", "web-app", "-n", "ns", "--replicas", Nat.repr 3])).err = none →
        (main (envAnswering "")
          ["cluster-manager", "scale", "ns", "web-app", Nat.repr 3]).exitCode = 0) :=
  ⟨envAnswering_credentials "", by decide,
    C8_scale_issues_one_call (envAnswering "") "cluster-manager" "ns" "web-app" 3
      (envAnswering_credentials "") (by decide)⟩

/-- C10, counterexample: the replicas argument `" 5"` does not begin with a decimal
integer (it begins with a blank), yet the scan skips the blank and reads 5: the
external command is started with `--replicas 5`, not `--replicas 0`. -/
theorem C10_leading_blank_example :
    beginsWithInteger " 5" = false ∧
      (main (envAnswering "") ["cluster-manager", "scale", "ns", "web-app", " 5"]).calls
        = [scaleCmd "ns" "web-app" "5"] ∧
      (main (envAnswering "") ["cluster-manager", "scale", "ns", "web-app", " 5"]).calls
        ≠ [scaleCmd "ns" "web-app" "0"] := by
  decide

/-- C10, amended: with the credentials in place, for every namespace and
deployment name, a replicas argument that, once its leading white space is
dropped, does not begin with an optionally signed decimal integer (such as
`abc` or the empty text) is not rejected: `replicas` keeps its initial value 0
and exactly one external command is started, with `--replicas 0`; the exit code
is 0 when that command succeeds and 1 when it fails. -/
theorem C10_unparsable_replicas_scale_to_zero (env : Env) (prog ns name arg : String)
    (hcred : osStat env (kubeconfigPath env) ≠ StatResult.notExist)
    (harg : beginsWithInteger (dropLeadingSpace arg) = false) :
    (main env [prog, "scale", ns, name, arg]).calls
        = [Command "kubectl" ["scale", "deployment", name, "-n", ns, "--replicas", "0"]] ∧
      (main env [prog, "scale", ns, name, arg]).exitCode
        = if (env.run [] (Command "kubectl"
            ["scale", "deployment", name, "-n", ns, "--replicas", "0"])).err = none then 0
          else 1 := by
  have hm := main_scale env prog ns name arg hcred
  rw [Sscanf_unparsable arg 0 harg] at hm
  exact hm

theorem C10_witness :
    osStat (envAnswering "") (kubeconfigPath (envAnswering "")) ≠ StatResult.notExist ∧
      beginsWithInteger (dropLeadingSpace "abc") = false ∧
      (main (envAnswering "") ["cluster-manager", "scale", "ns", "web-app", "abc"]).calls
        = [Command "kubectl" ["scale", "deployment", "web-app", "-n", "ns", "--replicas", "0"]] ∧
      (main (envAnswering "") ["cluster-manager", "scale", "ns", "web-app", "abc"]).exitCode
        = if ((envAnswering "").run [] (Command "kubectl"
            ["scale", "deployment", "web-app", "-n", "ns", "--replicas", "0"])).err = none then 0
          else 1 :=
  ⟨envAnswering_credentials "", by decide,
    C10_unparsable_replicas_scale_to_zero (envAnswering "") "cluster-manager" "ns" "web-app" "abc"
      (envAnswering_credentials "") (by decide)⟩

/-! ## The health aggregation -/

theorem foldl_count (p : String → Bool) (lines : List String) :
    ∀ k : Nat, lines.foldl (fun n line => if p line then n + 1 else n) k
      = k + lines.countP p := by
  induction lines with
  | nil => intro k; simp
  | cons l ls ih =>
    intro k
    by_cases hp : p l = true
    · simp [List.foldl, hp, ih, List.countP_cons]; omega
    · simp [List.foldl, hp, ih, List.countP_cons]

theorem countContaining_eq_countP (marker : String) (lines : List String) :
    countContaining marker lines = lines.countP (fun line => Contains line marker) := by
  unfold countContaining
  rw [foldl_count (fun line => Contains line marker) lines 0]
  simp

/-- The ready count never exceeds the total. -/
theorem aggregate_ready_le_total (marker output : String) :
    (aggregate marker output).1 ≤ (aggregate marker output).2 := by
  simp only [aggregate, countContaining_eq_countP]
  exact List.countP_le_length _

/-- The total is never 0: `strings.Split` returns at least one piece. -/
theorem aggregate_total_pos (marker output : String) : 0 < (aggregate marker output).2 := by
  simp only [aggregate, Split, List.length_map]
  cases h : (TrimSpace output).data with
  | nil => simp [splitChars]
  | cons c cs =>
    unfold splitChars
    split
    · simp
    · split <;> simp

/-- A listing that consists of white space only is counted as one entry that is
not ready, for every marker that is not empty. -/
theorem aggregate_blank (marker output : String) (hm : marker.data ≠ [])
    (h : ∀ c ∈ output.data, isSpace c = true) : aggregate marker output = (0, 1) := by
  have ht : TrimSpace output = "" := by
    unfold TrimSpace
    have : output.data.dropWhile isSpace = [] := by
      rw [List.dropWhile_eq_nil_iff]
      exact h
    rw [this]
    rfl
  have hc : Contains "" marker = false := by
    cases hd : marker.data with
    | nil => exact absurd hd hm
    | cons c cs => simp [Contains, hd, List.tails, List.isPrefixOf]
  simp only [aggregate, ht]
  have hs : Split "" '\n' = [""] := by decide
  rw [hs]
  simp [countContaining, hc]

/-- C1: on the node listing of two nodes, one `Ready` and one `NotReady`, the
aggregation of `CheckClusterHealth` yields ready = 2 and total = 2, and the
health command prints `Node Health: 2/2 nodes ready`; the line of the node that
is `NotReady` contains the marker `Ready` and is counted. -/
theorem C1_not_ready_node_counted_as_ready :
    aggregate "Ready" twoNodeListing = (2, 2) ∧
      Contains "node-b   NotReady   <none>          12d   v1.29.0" "Ready" = true ∧
      "Node Health: 2/2 nodes ready\n"
        ∈ (main (envCluster twoNodeListing "") ["cluster-manager", "health"]).out ∧
      aggregate "Ready" "Ready\nNotReady" = (2, 2) := by
  decide

/-- C2: on an empty listing the aggregation of `CheckClusterHealth` yields
ready = 0 and total = 1, for nodes and for pods, also when the output is white
space only (or the one line `No resources found` that `kubectl` writes for an
empty listing); the health command then prints `0/1` for both and exits with
code 0. -/
theorem C2_empty_listing_counts_one_entry :
    aggregate "Ready" "" = (0, 1) ∧ aggregate "Running" "" = (0, 1) ∧
      aggregate "Ready" " \n" = (0, 1) ∧ aggregate "Running" " \n" = (0, 1) ∧
      aggregate "Running" "No resources found\n" = (0, 1) ∧
      "Node Health: 0/1 nodes ready\n"
        ∈ (main (envCluster "" "") ["cluster-manager", "health"]).out ∧
      "Pod Health: 0/1 pods running\n"
        ∈ (main (envCluster "" "") ["cluster-manager", "health"]).out ∧
      (main (envCluster "" "") ["cluster-manager", "health"]).exitCode = 0 := by
  decide

/-- When every line that the code itself obtains from the output contains the
marker, the ready count equals the total count. -/
theorem aggregate_all_lines_marked (marker output : String)
    (h : ∀ line ∈ Split (TrimSpace output) '\n', Contains line marker = true) :
    (aggregate marker output).1 = (aggregate marker output).2 := by
  simp only [aggregate, countContaining_eq_countP]
  exact List.countP_eq_length.2 h

theorem aggregate_all_lines_marked_example :
    (∀ line ∈ Split (TrimSpace "pod-a   1/1   Running\npod-b   1/1   Running\n") '\n',
        Contains line "Running" = true) ∧
      (aggregate "Running" "pod-a   1/1   Running\npod-b   1/1   Running\n").1
        = (aggregate "Running" "pod-a   1/1   Running\npod-b   1/1   Running\n").2 :=
  ⟨by decide, aggregate_all_lines_marked "Running"
    "pod-a   1/1   Running\npod-b   1/1   Running\n" (by decide)⟩

/-- C9: in the listing without entries every entry contains the marker (there is
none), for nodes and for pods alike; `kubectl` prints nothing for it, and the
aggregation of `CheckClusterHealth` computes ready = 0 and total = 1, so the ready
count differs from the total count, and the health command prints `0/1` for
nodes and for pods. -/
theorem C9_empty_listing_ready_differs_from_total :
    (∀ entry ∈ ([] : List String), Contains entry "Ready" = true) ∧
      (∀ entry ∈ ([] : List String), Contains entry "Running" = true) ∧
      renderListing [] = "" ∧
      aggregate "Ready" (renderListing []) = (0, 1) ∧
      aggregate "Running" (renderListing []) = (0, 1) ∧
      (aggregate "Ready" (renderListing [])).1 ≠ (aggregate "Ready" (renderListing [])).2 ∧
      (aggregate "Running" (renderListing [])).1
        ≠ (aggregate "Running" (renderListing [])).2 ∧
      "Node Health: 0/1 nodes ready\n"
        ∈ (main (envCluster (renderListing []) (renderListing []))
            ["cluster-manager", "health"]).out ∧
      "Pod Health: 0/1 pods running\n"
        ∈ (main (envCluster (renderListing []) (renderListing []))
            ["cluster-manager", "health"]).out := by
  decide

/-- A line that is no entry of the listing, such as a warning that `kubectl`
writes to standard error and `CombinedOutput` captures with the listing, is
counted in the total as well: two nodes, both `Ready`, are reported as 2 of 3. -/
theorem aggregate_counts_stray_line :
    aggregate "Ready"
        ("Warning: deprecated flag\n" ++ renderListing ["node-a   Ready", "node-b   Ready"])
      = (2, 3) := by
  decide

/-- The root of the miscount of nodes that are not ready: every line that
contains `NotReady` also contains the marker `Ready`. -/
theorem Contains_Ready_of_NotReady (line : String) (h : Contains line "NotReady" = true) :
    Contains line "Ready" = true := by
  simp only [Contains, List.any_eq_true, List.mem_tails, List.isPrefixOf_iff_prefix] at h ⊢
  obtain ⟨t, hsuf, r, hr⟩ := h
  refine ⟨"Ready".data ++ r, ?_, List.prefix_append _ _⟩
  have h2 : ("Ready".data ++ r) <:+ t := by
    refine ⟨"Not".data, ?_⟩
    rw [← hr, ← List.append_assoc]
    rfl
  exact h2.trans hsuf

theorem checkNamespace_out (env : Env) (t : Trace) (ns : String) :
    ∃ s, (checkNamespace env t ns).out = t.out ++ [s] := by
  unfold checkNamespace
  simp only [Trace.exec]
  split <;> exact ⟨_, rfl⟩

theorem foldl_checkNamespace_out (env : Env) (nss : List String) :
    ∀ t : Trace, ∃ post, (nss.foldl (checkNamespace env) t).out = t.out ++ post := by
  induction nss with
  | nil => intro t; exact ⟨[], by simp⟩
  | cons ns nss ih =>
    intro t
    obtain ⟨post, hpost⟩ := ih (checkNamespace env t ns)
    obtain ⟨s, hs⟩ := checkNamespace_out env t ns
    exact ⟨s :: post, by simp [List.foldl, hpost, hs]⟩

/-- When the node listing succeeds, `CheckClusterHealth` prints the pair computed
by `aggregate` with marker `Ready` on the output of that listing. -/
theorem CheckClusterHealth_prints_node_health (cm : ClusterManager) (env : Env) (t : Trace)
    (h : (env.run t.calls (Command "kubectl" ["get", "nodes", "--no-headers"])).err = none) :
    ("Node Health: "
        ++ formatInt (aggregate "Ready"
            (env.run t.calls (Command "kubectl" ["get", "nodes", "--no-headers"])).output).1
        ++ "/"
        ++ formatInt (aggregate "Ready"
            (env.run t.calls (Command "kubectl" ["get", "nodes", "--no-headers"])).output).2
        ++ " nodes ready\n") ∈ (cm.CheckClusterHealth env t).1.out := by
  unfold ClusterManager.CheckClusterHealth
  simp only [Trace.exec, Trace.Println, Trace.Printf, h]
  split
  · simp
  · obtain ⟨post, hpost⟩ := foldl_checkNamespace_out env ["kube-system", "metallb-system", "traefik"]
      { calls := t.calls ++ [Command "kubectl" ["get", "nodes", "--no-headers"]]
          ++ [Command "kubectl" ["get", "pods", "-A", "--no-headers"]],
        out := t.out ++ ["=== Cluster Health Check ===" ++ "\n"] ++ ["\nNode Health:" ++ "\n"]
          ++ ["Node Health: "
            ++ formatInt (aggregate "Ready"
              (env.run t.calls (Command "kubectl" ["get", "nodes", "--no-headers"])).output).1
            ++ "/"
            ++ formatInt (aggregate "Ready"
              (env.run t.calls (Command "kubectl" ["get", "nodes", "--no-headers"])).output).2
            ++ " nodes ready\n"] ++ ["\nPod Health:" ++ "\n"]
          ++ ["Pod Health: "
            ++ formatInt (aggregate "Running"
              (env.run (t.calls ++ [Command "kubectl" ["get", "nodes", "--no-headers"]])
                (Command "kubectl" ["get", "pods", "-A", "--no-headers"])).output).1
            ++ "/"
            ++ formatInt (aggregate "Running"
              (env.run (t.calls ++ [Command "kubectl" ["get", "nodes", "--no-headers"]])
                (Command "kubectl" ["get", "pods", "-A", "--no-headers"])).output).2
            ++ " pods running\n"] }
    simp only [] at hpost ⊢
    rw [hpost]
    simp

/-! ## Listings with entries: the total is the number of entries -/

theorem Contains_iff_occurrence (s marker : String) :
    Contains s marker = true ↔ marker.data <:+: s.data := by
  simp only [Contains, List.any_eq_true, List.mem_tails, List.isPrefixOf_iff_prefix]
  rw [List.infix_iff_prefix_suffix]
  constructor
  · rintro ⟨t, h1, h2⟩; exact ⟨t, h2, h1⟩
  · rintro ⟨t, h1, h2⟩; exact ⟨t, h2, h1⟩

theorem exists_not_space_of_occurrence (m x : List Char) (hm : m ≠ [])
    (hms : ∀ c ∈ m, isSpace c = false) (h : m <:+: x) : ∃ c ∈ x, isSpace c = false := by
  cases m with
  | nil => exact absurd rfl hm
  | cons c cs =>
    exact ⟨c, h.subset (List.mem_cons_self c cs), hms c (List.mem_cons_self c cs)⟩

theorem dropWhile_append_of_not_space (a b : List Char) (h : ∃ c ∈ a, isSpace c = false) :
    (a ++ b).dropWhile isSpace = a.dropWhile isSpace ++ b := by
  rw [List.dropWhile_append]
  have hne : a.dropWhile isSpace ≠ [] := by
    intro hnil
    rw [List.dropWhile_eq_nil_iff] at hnil
    obtain ⟨c, hc, hs⟩ := h
    rw [hnil c hc] at hs
    exact Bool.noConfusion hs
  cases hd : a.dropWhile isSpace with
  | nil => exact absurd hd hne
  | cons c cs => simp

theorem occurrence_dropWhile (m x : List Char) (hm : m ≠ []) (hms : ∀ c ∈ m, isSpace c = false)
    (h : m <:+: x) : m <:+: x.dropWhile isSpace := by
  obtain ⟨a, b, hab⟩ := h
  subst hab
  by_cases ha : ∃ c ∈ a, isSpace c = false
  · rw [List.append_assoc, dropWhile_append_of_not_space a (m ++ b) ha, ← List.append_assoc]
    exact ⟨_, _, rfl⟩
  · have hall : ∀ c ∈ a, isSpace c = true := by
      intro c hc
      by_contra hcs
      exact ha ⟨c, hc, by simpa using hcs⟩
    rw [List.append_assoc, List.dropWhile_append_of_pos hall]
    cases m with
    | nil => exact absurd rfl hm
    | cons c cs =>
      have hc := hms c (List.mem_cons_self c cs)
      simp only [List.cons_append, List.dropWhile, hc]
      exact ⟨[], b, by simp⟩

theorem occurrence_trimRight (m x : List Char) (hm : m ≠ []) (hms : ∀ c ∈ m, isSpace c = false)
    (h : m <:+: x) : m <:+: (x.reverse.dropWhile isSpace).reverse := by
  have h1 : m.reverse <:+: x.reverse := List.reverse_infix.2 h
  have h2 := occurrence_dropWhile m.reverse x.reverse (by simpa using hm)
    (fun c hc => hms c (List.mem_reverse.1 hc)) h1
  have h3 := List.reverse_infix.2 h2
  rwa [List.reverse_reverse] at h3

theorem trimRight_append (a b : List Char) (h : ∃ c ∈ b, isSpace c = false) :
    ((a ++ b).reverse.dropWhile isSpace).reverse
      = a ++ (b.reverse.dropWhile isSpace).reverse := by
  rw [List.reverse_append, dropWhile_append_of_not_space b.reverse a.reverse
    (by obtain ⟨c, hc, hs⟩ := h; exact ⟨c, List.mem_reverse.2 hc, hs⟩)]
  simp

theorem splitChars_of_not_mem (sep : Char) (l : List Char) (h : sep ∉ l) :
    splitChars sep l = [l] := by
  induction l with
  | nil => rfl
  | cons c cs ih =>
    have hc : c ≠ sep := fun e => h (e ▸ List.mem_cons_self c cs)
    have hcs : sep ∉ cs := fun e => h (List.mem_cons_of_mem c e)
    simp [splitChars, hc, ih hcs]

theorem splitChars_append_sep (sep : Char) (l rest : List Char) (h : sep ∉ l) :
    splitChars sep (l ++ sep :: rest) = l :: splitChars sep rest := by
  induction l with
  | nil => simp [splitChars]
  | cons c cs ih =>
    have hc : c ≠ sep := fun e => h (e ▸ List.mem_cons_self c cs)
    have hcs : sep ∉ cs := fun e => h (List.mem_cons_of_mem c e)
    simp [splitChars, hc, ih hcs]

theorem renderListing_cons_data (entry : String) (rest : List String) :
    (renderListing (entry :: rest)).data = entry.data ++ '\n' :: (renderListing rest).data := by
  simp [renderListing, String.data_append]

/-- The lines of a right-trimmed rendering: as many as there are entries, each
still containing the marker. -/
theorem lines_of_trimmed_rendering (m : List Char) (hm : m ≠ [])
    (hms : ∀ c ∈ m, isSpace c = false) (rest : List String) :
    ∀ first : List Char, '\n' ∉ first → m <:+: first →
      (∀ e ∈ rest, '\n' ∉ e.data ∧ m <:+: e.data) →
      (splitChars '\n'
          (((first ++ '\n' :: (renderListing rest).data).reverse.dropWhile isSpace).reverse)).length
          = rest.length + 1 ∧
        ∀ piece ∈ splitChars '\n'
          (((first ++ '\n' :: (renderListing rest).data).reverse.dropWhile isSpace).reverse),
          m <:+: piece := by
  induction rest with
  | nil =>
    intro first hnl hin _
    have hsp : isSpace '\n' = true := by decide
    have ht : ((first ++ '\n' :: (renderListing []).data).reverse.dropWhile isSpace).reverse
        = (first.reverse.dropWhile isSpace).reverse := by
      simp [renderListing, List.dropWhile, hsp]
    rw [ht]
    have hnl2 : '\n' ∉ (first.reverse.dropWhile isSpace).reverse := by
      intro hmem
      have h1 := List.mem_reverse.1 hmem
      exact hnl (List.mem_reverse.1 ((List.dropWhile_suffix isSpace).subset h1))
    rw [splitChars_of_not_mem '\n' _ hnl2]
    refine ⟨rfl, ?_⟩
    intro piece hp
    rw [List.mem_singleton] at hp
    rw [hp]
    exact occurrence_trimRight m first hm hms hin
  | cons e es ih =>
    intro first hnl hin hrest
    obtain ⟨henl, hein⟩ := hrest e (List.mem_cons_self e es)
    have hns : ∃ c ∈ e.data ++ '\n' :: (renderListing es).data, isSpace c = false := by
      obtain ⟨c, hc, hs⟩ := exists_not_space_of_occurrence m e.data hm hms hein
      exact ⟨c, List.mem_append_left _ hc, hs⟩
    have ht : ((first ++ '\n' :: (renderListing (e :: es)).data).reverse.dropWhile
          isSpace).reverse
        = first ++ '\n' ::
          ((e.data ++ '\n' :: (renderListing es).data).reverse.dropWhile isSpace).reverse := by
      rw [renderListing_cons_data]
      have := trimRight_append (first ++ ['\n']) (e.data ++ '\n' :: (renderListing es).data) hns
      simpa using this
    rw [ht, splitChars_append_sep '\n' first _ hnl]
    obtain ⟨hlen, hall⟩ := ih e.data henl hein
      (fun e2 he2 => hrest e2 (List.mem_cons_of_mem e he2))
    refine ⟨by rw [List.length_cons, hlen, List.length_cons], ?_⟩
    intro piece hp
    rcases List.mem_cons.1 hp with hp | hp
    · rw [hp]; exact hin
    · exact hall piece hp

/-- For a listing with at least one entry, whose entries are single lines that
all contain the marker, the aggregation counts every entry as ready and the
total is the number of entries. The marker is any non-empty text without white
space, such as `Ready` or `Running`. -/
theorem aggregate_marked_entries (marker : String) (entries : List String)
    (hne : entries ≠ []) (hm : marker.data ≠ [])
    (hms : ∀ c ∈ marker.data, isSpace c = false)
    (hline : ∀ e ∈ entries, '\n' ∉ e.data)
    (hall : ∀ e ∈ entries, Contains e marker = true) :
    aggregate marker (renderListing entries) = (entries.length, entries.length) := by
  cases entries with
  | nil => exact absurd rfl hne
  | cons e es =>
    have hein : marker.data <:+: e.data :=
      (Contains_iff_occurrence e marker).1 (hall e (List.mem_cons_self e es))
    have henl := hline e (List.mem_cons_self e es)
    have hns := exists_not_space_of_occurrence marker.data e.data hm hms hein
    have hfirst : '\n' ∉ e.data.dropWhile isSpace :=
      fun hmem => henl ((List.dropWhile_suffix isSpace).subset hmem)
    have hfin := occurrence_dropWhile marker.data e.data hm hms hein
    obtain ⟨hlen, hpieces⟩ := lines_of_trimmed_rendering marker.data hm hms es
      (e.data.dropWhile isSpace) hfirst hfin
      (fun e2 he2 => ⟨hline e2 (List.mem_cons_of_mem e he2),
        (Contains_iff_occurrence e2 marker).1 (hall e2 (List.mem_cons_of_mem e he2))⟩)
    have htrim : (TrimSpace (renderListing (e :: es))).data
        = ((e.data.dropWhile isSpace ++ '\n' :: (renderListing es).data).reverse.dropWhile
            isSpace).reverse := by
      simp only [TrimSpace, renderListing_cons_data]
      rw [dropWhile_append_of_not_space e.data _ hns]
    have hcount : ∀ line ∈ Split (TrimSpace (renderListing (e :: es))) '\n',
        Contains line marker = true := by
      intro line hl
      simp only [Split, List.mem_map] at hl
      obtain ⟨piece, hp, rfl⟩ := hl
      rw [htrim] at hp
      exact (Contains_iff_occurrence _ marker).2 (hpieces piece hp)
    have htotal : (Split (TrimSpace (renderListing (e :: es))) '\n').length = es.length + 1 := by
      simp only [Split, List.length_map]
      rw [htrim]
      exact hlen
    simp only [aggregate, countContaining_eq_countP, List.length_cons]
    rw [List.countP_eq_length.2 hcount, htotal]

theorem aggregate_marked_entries_example :
    aggregate "Ready" (renderListing ["node-a   Ready   12d", "node-b   Ready   12d"])
      = (2, 2) :=
  aggregate_marked_entries "Ready" ["node-a   Ready   12d", "node-b   Ready   12d"]
    (by decide) (by decide) (by decide) (by decide) (by decide)

end ClusterMgr
